import Mathlib

/-!
Shallow embedding of the remote session manager of `kernel-builder`
(`src/kvm/ssh.rs` and `src/config/config.rs`).

Durations are modelled in nanoseconds (`Nat`), matching Rust's `Duration`
arithmetic: `as_millis` truncates, `min` and `* 2` are exact.  Network and
filesystem effects are supplied by an explicit environment (`ConnEnv`,
`ExecOutcome`, `CloseOutcome`); randomness is an entropy stream reduced
modulo the range size, and the `rand` sampler's panic on an empty range is
modelled by `Option.none`.
-/

deriving instance DecidableEq for Except

/-- Nanoseconds per millisecond. -/
def nsPerMs : Nat := 1000000

/-- `Duration::as_millis`, on a duration in nanoseconds (truncating). -/
def durationAsMillis (d : Nat) : Nat := d / nsPerMs

/-- `rand::Rng::random_range(0..hi)`: uniform over `[0, hi)` when the range is
non-empty (modelled by reducing a raw entropy draw modulo `hi`); the sampler
panics on an empty range, modelled as `none`. -/
def randRange (raw hi : Nat) : Option Nat :=
  if hi = 0 then none else some (raw % hi)

/-- The `SSHError` enum of `src/kvm/ssh.rs` (payloads as display strings). -/
inductive SSHError where
  | connectionFailed (msg : String)
  | authenticationFailed (msg : String)
  | sessionFailed (msg : String)
  | ioErr (msg : String)
  | openSSHErr (msg : String)
  | clientNotInitialized
  | commandExecutionFailed (msg : String)
  | hostKeyVerificationFailed
  | timeoutError (msg : String)
  | unexpectedEof
  deriving DecidableEq, Repr

/-- The `thiserror` `Display` implementation of `SSHError`. -/
def SSHError.toMessage : SSHError → String
  | .connectionFailed m => "Connection failed: " ++ m
  | .authenticationFailed m => "Authentication failed: " ++ m
  | .sessionFailed m => "Session failed: " ++ m
  | .ioErr m => "IO error: " ++ m
  | .openSSHErr m => "OpenSSH error: " ++ m
  | .clientNotInitialized => "Client not initialized"
  | .commandExecutionFailed m => "SSH command execution failed: " ++ m
  | .hostKeyVerificationFailed => "Host key verification failed"
  | .timeoutError m => "Timeout error: " ++ m
  | .unexpectedEof => "Unexpected EOF or connection closed"

/-- The `SSHConfig` struct of `src/config/config.rs`; durations in ns. -/
structure SSHConfig where
  host : String
  port : Nat
  user : String
  keyPath : String
  timeoutNs : Nat
  maxRetries : Nat
  initialBackoffNs : Nat
  maxBackoffNs : Nat
  strictHostKeyChecking : Bool
  compression : Bool
  keepAliveIntervalNs : Option Nat
  deriving DecidableEq, Repr

/-- `SSHConfig::validate` of `src/config/config.rs`. -/
def SSHConfig.validate (c : SSHConfig) : Except SSHError Unit :=
  if c.host = "" then
    Except.error (SSHError.connectionFailed "Host cannot be empty")
  else if c.maxRetries = 0 then
    Except.error (SSHError.connectionFailed "Max retries must be greater than 0")
  else
    Except.ok ()

/-- The `SSHManager` struct: config, optional live channel handle (abstract),
optional connected-since instant (ns). -/
structure SSHManager where
  config : SSHConfig
  session : Option Nat
  connectedAt : Option Nat
  deriving DecidableEq, Repr

/-- `SSHManager::new`: validates the config, then constructs the manager with
no session and no timestamp. -/
def SSHManager.new (c : SSHConfig) : Except SSHError SSHManager :=
  match c.validate with
  | Except.error e => Except.error e
  | Except.ok () => Except.ok { config := c, session := none, connectedAt := none }

/-- Outcome of one network connection attempt inside `try_connect`: the
`tokio::time::timeout` elapsing, `SessionBuilder::connect` failing (payload is
the debug-formatted openssh error), or success. -/
inductive NetOutcome where
  | timeout
  | failure (e : String)
  | success
  deriving DecidableEq, Repr

/-- Environment for `connect`: per-attempt result of
`std::fs::canonicalize(key_path)` (error payload is the io error's display
string), per-attempt network outcome, a raw entropy stream for the jitter
draws, and the current instant (for `Instant::now`). -/
structure ConnEnv where
  canonicalize : Nat → Except String String
  net : Nat → NetOutcome
  entropy : Nat → Nat
  now : Nat

/-- `SSHManager::try_connect`: resolves the key file (an io failure is
converted to `SSHError::IO` by `?` and aborts the attempt before the network
connect), then connects with the configured timeout; on success stores the
session handle. -/
def tryConnect (env : ConnEnv) (m : SSHManager) (attempt : Nat) :
    Except SSHError SSHManager :=
  match env.canonicalize attempt with
  | Except.error msg => Except.error (SSHError.ioErr msg)
  | Except.ok _path =>
    match env.net attempt with
    | NetOutcome.timeout => Except.error (SSHError.timeoutError "Connection timed out")
    | NetOutcome.failure e =>
        Except.error (SSHError.connectionFailed
          ("Failed to connect to " ++ m.config.user ++ "@" ++ m.config.host ++ ": " ++ e))
    | NetOutcome.success => Except.ok { m with session := some 0 }

/-- Result of a whole `connect` call, instrumented with the number of attempts
performed and the list of backoff sleeps (ns, in order). -/
structure ConnectOutcome where
  result : Except SSHError Unit
  mgr : SSHManager
  attempts : Nat
  sleepsNs : List Nat
  deriving DecidableEq, Repr

/-- The retry loop of `SSHManager::connect` (`for attempt in 0..max_retries`),
structurally recursing on the number of remaining iterations.  On a failed
attempt that is not the last, draws jitter from `[0, backoff.as_millis())`
(panic on an empty range modelled as `none`), sleeps `backoff + jitter` (ms),
then doubles the backoff capped at `max_backoff`. -/
def connectGo (env : ConnEnv) (m : SSHManager) (attempt backoff : Nat)
    (sleeps : List Nat) : Nat → Option ConnectOutcome
  | 0 => some { result := Except.error (SSHError.connectionFailed
                  "Max retries reached without a successful connection"),
                mgr := m, attempts := attempt, sleepsNs := sleeps }
  | rem + 1 =>
    match tryConnect env m attempt with
    | Except.ok m1 =>
        some { result := Except.ok (),
               mgr := { m1 with connectedAt := some env.now },
               attempts := attempt + 1, sleepsNs := sleeps }
    | Except.error e =>
        if attempt < m.config.maxRetries - 1 then
          match randRange (env.entropy attempt) (durationAsMillis backoff) with
          | none => none
          | some jitter =>
              connectGo env m (attempt + 1) (min (backoff * 2) m.config.maxBackoffNs)
                (sleeps ++ [backoff + jitter * nsPerMs]) rem
        else
          some { result := Except.error (SSHError.connectionFailed
                   ("Failed to connect after " ++ toString m.config.maxRetries
                     ++ " attempts: " ++ e.toMessage)),
                 mgr := m, attempts := attempt + 1, sleepsNs := sleeps }

/-- `SSHManager::connect`. -/
def SSHManager.connect (m : SSHManager) (env : ConnEnv) : Option ConnectOutcome :=
  connectGo env m 0 m.config.initialBackoffNs [] m.config.maxRetries

/-- The backoff value in force before the `j`-th sleep (0-based):
`backoffSeq mB b 0 = b` and each step doubles and caps at `mB`, mirroring
`backoff = min(backoff * 2, max_backoff)` in the loop. -/
def backoffSeq (mB b : Nat) : Nat → Nat
  | 0 => b
  | j + 1 => min (backoffSeq mB b j * 2) mB

/-- Outcome of `Session::close` during `disconnect`. -/
inductive CloseOutcome where
  | ok
  | fail (e : String)
  deriving DecidableEq, Repr

/-- `SSHManager::disconnect`: `session.take()` always releases the handle; a
failing close returns early via `?` with `SessionFailed`, skipping the
`connected_at = None` assignment. -/
def SSHManager.disconnect (m : SSHManager) (close : CloseOutcome) :
    Except SSHError Unit × SSHManager :=
  match m.session with
  | some _ =>
    match close with
    | CloseOutcome.ok => (Except.ok (), { m with session := none, connectedAt := none })
    | CloseOutcome.fail e =>
        (Except.error (SSHError.sessionFailed ("Failed to close session: " ++ e)),
         { m with session := none })
  | none => (Except.ok (), { m with connectedAt := none })

/-- The `ConnectionInfo` struct. -/
structure ConnectionInfo where
  host : String
  port : Nat
  user : String
  connectedAt : Nat
  deriving DecidableEq, Repr

/-- `SSHManager::connection_info`: a snapshot iff a session is held;
`connected_at.unwrap_or_else(Instant::now)`. -/
def SSHManager.connectionInfo (m : SSHManager) (now : Nat) : Option ConnectionInfo :=
  m.session.map (fun _ =>
    { host := m.config.host, port := m.config.port, user := m.config.user,
      connectedAt := m.connectedAt.getD now })

/-- Captured output of a completed remote command: lossily decoded stdout and
stderr text and the exit status (0 = success). -/
structure CmdOutput where
  stdout : String
  stderr : String
  status : Nat
  deriving DecidableEq, Repr

/-- Outcome of running one remote command: the timeout elapsing, a
channel-level failure of `output()` (payload: debug-formatted transport
error), or completion with captured output. -/
inductive ExecOutcome where
  | timeout
  | channelErr (e : String)
  | completed (out : CmdOutput)
  deriving DecidableEq, Repr

/-- `SSHManager::execute`, instrumented with the list of remote invocations
actually issued (`bash -lc cmd`), empty when no session is held. -/
def SSHManager.executeTr (m : SSHManager) (cmd : String) (outcome : ExecOutcome) :
    Except SSHError String × List (List String) :=
  match m.session with
  | none => (Except.error SSHError.clientNotInitialized, [])
  | some _ =>
    match outcome with
    | ExecOutcome.timeout =>
        (Except.error (SSHError.timeoutError "Command execution timed out"),
         [["bash", "-lc", cmd]])
    | ExecOutcome.channelErr e =>
        (Except.error (SSHError.commandExecutionFailed
           ("Failed to execute command: " ++ e)), [["bash", "-lc", cmd]])
    | ExecOutcome.completed out =>
        if out.status = 0 then
          (Except.ok out.stdout, [["bash", "-lc", cmd]])
        else
          (Except.error (SSHError.commandExecutionFailed
             ("Command failed with status: " ++ toString out.status
               ++ ", stderr: " ++ out.stderr)), [["bash", "-lc", cmd]])

/-- `SSHManager::execute` (result only). -/
def SSHManager.execute (m : SSHManager) (cmd : String) (outcome : ExecOutcome) :
    Except SSHError String :=
  (m.executeTr cmd outcome).1

/-- The loop of `execute_batch`, instrumented with the commands actually run:
each command is executed in order, its output pushed, and the first error is
returned by `?`. -/
def executeBatchGo (m : SSHManager) (outcomes : Nat → ExecOutcome) :
    List String → Nat → List String → List String →
    Except SSHError (List String) × List String
  | [], _i, results, ran => (Except.ok results, ran)
  | c :: rest, i, results, ran =>
    match m.execute c (outcomes i) with
    | Except.error e => (Except.error e, ran ++ [c])
    | Except.ok r => executeBatchGo m outcomes rest (i + 1) (results ++ [r]) (ran ++ [c])

/-- `SSHManager::execute_batch`. -/
def SSHManager.executeBatch (m : SSHManager) (cmds : List String)
    (outcomes : Nat → ExecOutcome) : Except SSHError (List String) × List String :=
  executeBatchGo m outcomes cmds 0 [] []

/-- The `SSHConnectionPool` struct: keyed managers (association list standing
for the `HashMap`) and the capacity bound. -/
structure SSHConnectionPool where
  connections : List (String × SSHManager)
  maxConnections : Nat
  deriving DecidableEq, Repr

/-- `SSHConnectionPool::new`. -/
def SSHConnectionPool.new (maxConnections : Nat) : SSHConnectionPool :=
  { connections := [], maxConnections := maxConnections }

/-- `HashMap::get` on the association list. -/
def lookupConn (l : List (String × SSHManager)) (key : String) : Option SSHManager :=
  match l with
  | [] => none
  | kv :: rest => if kv.1 = key then some kv.2 else lookupConn rest key

/-- `HashMap::remove` on the association list (keys are unique by
construction: inserts happen only for absent keys). -/
def eraseConn (l : List (String × SSHManager)) (key : String) :
    List (String × SSHManager) :=
  match l with
  | [] => []
  | kv :: rest => if kv.1 = key then rest else kv :: eraseConn rest key

/-- Result of `get_or_create_connection`, instrumented with whether a connect
was attempted. -/
structure PoolGetResult where
  result : Except SSHError SSHManager
  pool : SSHConnectionPool
  attemptedConnect : Bool
  deriving DecidableEq, Repr

/-- `SSHConnectionPool::get_or_create_connection`: an existing entry is
returned as-is (config ignored); an absent key at capacity fails without any
connect; otherwise a manager is built (`SSHManager::new`), connected, and
inserted only on success.  `none` models the connect panicking. -/
def SSHConnectionPool.getOrCreateConnection (p : SSHConnectionPool) (key : String)
    (cfg : SSHConfig) (env : ConnEnv) : Option PoolGetResult :=
  match lookupConn p.connections key with
  | some mgr => some { result := Except.ok mgr, pool := p, attemptedConnect := false }
  | none =>
    if p.maxConnections ≤ p.connections.length then
      some { result := Except.error (SSHError.connectionFailed
               "Maximum number of connections reached"),
             pool := p, attemptedConnect := false }
    else
      match SSHManager.new cfg with
      | Except.error e => some { result := Except.error e, pool := p, attemptedConnect := false }
      | Except.ok m0 =>
        match m0.connect env with
        | none => none
        | some o =>
          match o.result with
          | Except.error e => some { result := Except.error e, pool := p, attemptedConnect := true }
          | Except.ok () =>
              some { result := Except.ok o.mgr,
                     pool := { p with connections := p.connections ++ [(key, o.mgr)] },
                     attemptedConnect := true }

/-- `SSHConnectionPool::remove_connection`: remove the entry if present and
disconnect it, surfacing the disconnect error; no-op success if absent. -/
def SSHConnectionPool.removeConnection (p : SSHConnectionPool) (key : String)
    (close : CloseOutcome) : Except SSHError Unit × SSHConnectionPool :=
  match lookupConn p.connections key with
  | none => (Except.ok (), p)
  | some mgr =>
    ((mgr.disconnect close).1, { p with connections := eraseConn p.connections key })

/-- `SSHConnectionPool::close_all`: drains every entry, disconnecting each and
logging (swallowing) per-entry failures; always returns `Ok(())`. -/
def SSHConnectionPool.closeAll (p : SSHConnectionPool) :
    Except SSHError Unit × SSHConnectionPool :=
  (Except.ok (), { p with connections := [] })

/-- One inbound pool operation, with its environment. -/
inductive PoolOp where
  | getOrCreate (key : String) (cfg : SSHConfig) (env : ConnEnv)
  | remove (key : String) (close : CloseOutcome)
  | closeAllOp

/-- Apply one pool operation (ignoring the returned value); `none` when the
underlying connect panicked. -/
def applyPoolOp (p : SSHConnectionPool) : PoolOp → Option SSHConnectionPool
  | PoolOp.getOrCreate key cfg env => (p.getOrCreateConnection key cfg env).map (·.pool)
  | PoolOp.remove key close => some (p.removeConnection key close).2
  | PoolOp.closeAllOp => some (p.closeAll).2

/-- Run a sequence of pool operations. -/
def runPool (p : SSHConnectionPool) : List PoolOp → Option SSHConnectionPool
  | [] => some p
  | op :: rest =>
    match applyPoolOp p op with
    | none => none
    | some p1 => runPool p1 rest

/-! ## Helper lemmas -/

theorem backoffSeq_shift (mB b : Nat) :
    ∀ j, backoffSeq mB (min (b * 2) mB) j = backoffSeq mB b (j + 1) := by
  intro j
  induction j with
  | zero => simp [backoffSeq]
  | succ j ih => simp only [backoffSeq, ih]

theorem backoffSeq_closed (mB b : Nat) :
    ∀ j, 1 ≤ j → backoffSeq mB b j = min (b * 2 ^ j) mB := by
  intro j
  induction j with
  | zero => intro h; omega
  | succ j ih =>
    intro _
    cases Nat.eq_zero_or_pos j with
    | inl h0 => subst h0; simp [backoffSeq, pow_succ]
    | inr h1 =>
      have hj := ih h1
      simp only [backoffSeq, hj, pow_succ, ← mul_assoc]
      have := Nat.pos_pow_of_pos j (show 0 < 2 by norm_num)
      generalize b * 2 ^ j = t
      omega

theorem backoffSeq_ge_min (mB b : Nat) : ∀ j, min b mB ≤ backoffSeq mB b j := by
  intro j
  induction j with
  | zero => simp [backoffSeq]
  | succ j ih =>
    simp only [backoffSeq]
    generalize hs : backoffSeq mB b j = s at ih
    omega

theorem durationAsMillis_backoffSeq_pos (mB b : Nat)
    (hb : nsPerMs ≤ b) (hm : nsPerMs ≤ mB) (j : Nat) :
    0 < durationAsMillis (backoffSeq mB b j) := by
  have h1 : min b mB ≤ backoffSeq mB b j := backoffSeq_ge_min mB b j
  have h2 : nsPerMs ≤ backoffSeq mB b j := le_trans (le_min hb hm) h1
  have : 0 < nsPerMs := by norm_num [nsPerMs]
  exact Nat.div_pos h2 this

/-- Characterization of the retry loop when every attempt fails and every
jitter range is non-empty: the loop runs to exhaustion, returns the
`ConnectionFailed` wrapping the final attempt's error, performs
`max_retries` attempts and sleeps once per non-final failure, each sleep
being the current backoff plus the sampled jitter in milliseconds. -/
theorem connectGo_allFail (env : ConnEnv) (m : SSHManager) (errF : Nat → SSHError)
    (hfail : ∀ k, tryConnect env m k = Except.error (errF k)) :
    ∀ (rem : Nat), ∀ (attempt backoff : Nat) (sleeps : List Nat),
      attempt + rem = m.config.maxRetries → 1 ≤ rem →
      (∀ j, j + 1 < rem → 0 < durationAsMillis (backoffSeq m.config.maxBackoffNs backoff j)) →
      connectGo env m attempt backoff sleeps rem =
        some { result := Except.error (SSHError.connectionFailed
                 ("Failed to connect after " ++ toString m.config.maxRetries
                   ++ " attempts: " ++ (errF (m.config.maxRetries - 1)).toMessage)),
               mgr := m, attempts := m.config.maxRetries,
               sleepsNs := sleeps ++ (List.range (rem - 1)).map (fun j =>
                 backoffSeq m.config.maxBackoffNs backoff j
                   + (env.entropy (attempt + j)
                       % durationAsMillis (backoffSeq m.config.maxBackoffNs backoff j))
                     * nsPerMs) } := by
  intro rem
  induction rem with
  | zero => intro attempt backoff sleeps _ h1 _; omega
  | succ r ih =>
    intro attempt backoff sleeps hsum _ hpos
    cases r with
    | zero =>
      simp only [connectGo, hfail attempt]
      have hguard : ¬ (attempt < m.config.maxRetries - 1) := by omega
      rw [if_neg hguard]
      have hatt : m.config.maxRetries = attempt + 1 := by omega
      simp [hatt, Nat.add_sub_cancel]
    | succ r' =>
      have hguard : attempt < m.config.maxRetries - 1 := by omega
      have h0 : 0 < durationAsMillis backoff := by
        have := hpos 0 (by omega)
        simpa [backoffSeq] using this
      have hr : randRange (env.entropy attempt) (durationAsMillis backoff)
          = some (env.entropy attempt % durationAsMillis backoff) := by
        rw [randRange, if_neg (by omega)]
      have step : connectGo env m attempt backoff sleeps (r' + 1 + 1)
          = connectGo env m (attempt + 1) (min (backoff * 2) m.config.maxBackoffNs)
              (sleeps ++ [backoff + env.entropy attempt % durationAsMillis backoff * nsPerMs])
              (r' + 1) := by
        conv_lhs => rw [connectGo.eq_2]
        rw [hfail attempt]
        simp only [if_pos hguard, hr]
      rw [step, ih (attempt + 1) (min (backoff * 2) m.config.maxBackoffNs)
            (sleeps ++ [backoff + env.entropy attempt % durationAsMillis backoff * nsPerMs])
            (by omega) (by omega)
            (by intro j hj
                rw [backoffSeq_shift]
                exact hpos (j + 1) (by omega))]
      have hshape : (List.range (r' + 1 + 1 - 1)).map (fun j =>
          backoffSeq m.config.maxBackoffNs backoff j
            + (env.entropy (attempt + j)
                % durationAsMillis (backoffSeq m.config.maxBackoffNs backoff j)) * nsPerMs)
          = (backoff + env.entropy attempt % durationAsMillis backoff * nsPerMs)
            :: (List.range (r' + 1 - 1)).map (fun j =>
                backoffSeq m.config.maxBackoffNs (min (backoff * 2) m.config.maxBackoffNs) j
                  + (env.entropy (attempt + 1 + j)
                      % durationAsMillis (backoffSeq m.config.maxBackoffNs
                          (min (backoff * 2) m.config.maxBackoffNs) j)) * nsPerMs) := by
        have hpt : ∀ j : Nat,
            backoffSeq m.config.maxBackoffNs backoff (j + 1)
              + env.entropy (attempt + (j + 1))
                  % durationAsMillis (backoffSeq m.config.maxBackoffNs backoff (j + 1)) * nsPerMs
            = backoffSeq m.config.maxBackoffNs (min (backoff * 2) m.config.maxBackoffNs) j
              + env.entropy (attempt + 1 + j)
                  % durationAsMillis (backoffSeq m.config.maxBackoffNs
                      (min (backoff * 2) m.config.maxBackoffNs) j) * nsPerMs := by
          intro j
          rw [backoffSeq_shift, show attempt + (j + 1) = attempt + 1 + j from by omega]
        simp only [Nat.add_sub_cancel]
        rw [List.range_succ_eq_map, List.map_cons, List.map_map]
        congr 1
        exact List.map_congr_left (fun a _ => hpt a)
      rw [hshape]
      simp [List.append_assoc]

/-- `connect` under an all-failing environment with both backoff parameters at
least 1 ms: runs all `max_retries` attempts, sleeps once per non-final
failure, and returns `ConnectionFailed` wrapping the last error. -/
theorem connect_allFail (env : ConnEnv) (m : SSHManager) (errF : Nat → SSHError)
    (hfail : ∀ k, tryConnect env m k = Except.error (errF k))
    (hn : 1 ≤ m.config.maxRetries)
    (hb : nsPerMs ≤ m.config.initialBackoffNs)
    (hm : nsPerMs ≤ m.config.maxBackoffNs) :
    m.connect env =
      some { result := Except.error (SSHError.connectionFailed
               ("Failed to connect after " ++ toString m.config.maxRetries
                 ++ " attempts: " ++ (errF (m.config.maxRetries - 1)).toMessage)),
             mgr := m, attempts := m.config.maxRetries,
             sleepsNs := (List.range (m.config.maxRetries - 1)).map (fun j =>
               backoffSeq m.config.maxBackoffNs m.config.initialBackoffNs j
                 + (env.entropy j % durationAsMillis
                     (backoffSeq m.config.maxBackoffNs m.config.initialBackoffNs j)) * nsPerMs) } := by
  have h := connectGo_allFail env m errF hfail m.config.maxRetries 0
    m.config.initialBackoffNs [] (by omega) hn
    (fun j _ => durationAsMillis_backoffSeq_pos _ _ hb hm j)
  rw [SSHManager.connect, h]
  simp

/-! ## C1: backoff sequence -/

/-- Config with initial backoff 2 ms exceeding max backoff 1 ms, two
retries. -/
def c1cfg : SSHConfig :=
  { host := "vm", port := 22, user := "root", keyPath := "id", timeoutNs := 30000000000,
    maxRetries := 2, initialBackoffNs := 2000000, maxBackoffNs := 1000000,
    strictHostKeyChecking := false, compression := false, keepAliveIntervalNs := none }

/-- Fresh manager for `c1cfg`. -/
def c1mgr : SSHManager := { config := c1cfg, session := none, connectedAt := none }

/-- Environment whose network connect is always refused (key file resolves
fine) and whose entropy stream is all zeros. -/
def refusedEnv : ConnEnv :=
  { canonicalize := fun _ => Except.ok "id", net := fun _ => NetOutcome.failure "refused",
    entropy := fun _ => 0, now := 0 }

/-- C1 counterexample: with `initial_backoff = 2 ms` and `max_backoff = 1 ms`,
the sleep after the first failed attempt is 2 ms (the raw backoff plus zero
jitter), which lies outside the claimed interval
`[min(b·2^0, m), min(b·2^0, m) + min(b·2^0, m).as_millis() ms) = [1 ms, 2 ms)`:
the first sleep base is not capped at `max_backoff`. -/
theorem c1_counterexample :
    (SSHManager.connect c1mgr refusedEnv).map ConnectOutcome.sleepsNs = some [2000000] ∧
    ¬ (min (c1cfg.initialBackoffNs * 2 ^ (1 - 1)) c1cfg.maxBackoffNs ≤ 2000000 ∧
       2000000 < min (c1cfg.initialBackoffNs * 2 ^ (1 - 1)) c1cfg.maxBackoffNs
         + durationAsMillis (min (c1cfg.initialBackoffNs * 2 ^ (1 - 1)) c1cfg.maxBackoffNs)
           * nsPerMs) := by
  constructor
  · rfl
  · decide

/-- C1 (amended): when every attempt fails and both backoff parameters are at
least 1 ms (so every jitter draw is well-defined), the sleep after failed
attempt `i` (1-based, `i < max_retries`) is `base + jitter` ms where `jitter`
is in `[0, base.as_millis())` and the base of attempt 1 is the raw
`initial_backoff` (not capped at `max_backoff`), while the base of attempt
`i ≥ 2` is `min(initial_backoff · 2^(i-1), max_backoff)`. -/
theorem c1_backoff_sequence (env : ConnEnv) (m : SSHManager) (errF : Nat → SSHError)
    (hfail : ∀ k, tryConnect env m k = Except.error (errF k))
    (hb : nsPerMs ≤ m.config.initialBackoffNs)
    (hm : nsPerMs ≤ m.config.maxBackoffNs)
    (i : Nat) (h1 : 1 ≤ i) (hi : i < m.config.maxRetries) :
    ∃ o jit,
      m.connect env = some o ∧
      jit < durationAsMillis (if i = 1 then m.config.initialBackoffNs
        else min (m.config.initialBackoffNs * 2 ^ (i - 1)) m.config.maxBackoffNs) ∧
      o.sleepsNs[i - 1]? = some ((if i = 1 then m.config.initialBackoffNs
        else min (m.config.initialBackoffNs * 2 ^ (i - 1)) m.config.maxBackoffNs)
          + jit * nsPerMs) := by
  have hn : 1 ≤ m.config.maxRetries := by omega
  have hc := connect_allFail env m errF hfail hn hb hm
  have hbase : backoffSeq m.config.maxBackoffNs m.config.initialBackoffNs (i - 1)
      = (if i = 1 then m.config.initialBackoffNs
         else min (m.config.initialBackoffNs * 2 ^ (i - 1)) m.config.maxBackoffNs) := by
    by_cases h : i = 1
    · subst h; simp [backoffSeq]
    · rw [if_neg h, backoffSeq_closed _ _ (i - 1) (by omega)]
  refine ⟨_, env.entropy (i - 1) % durationAsMillis
      (backoffSeq m.config.maxBackoffNs m.config.initialBackoffNs (i - 1)), hc, ?_, ?_⟩
  · rw [← hbase]
    exact Nat.mod_lt _ (durationAsMillis_backoffSeq_pos _ _ hb hm (i - 1))
  · rw [List.getElem?_map, List.getElem?_range (show i - 1 < m.config.maxRetries - 1 by omega)]
    simp only [Option.map_some']
    rw [hbase]

/-- Config for the C1 witness: backoff 2 ms doubling under a 30 ms cap, three
retries. -/
def c1wcfg : SSHConfig :=
  { host := "vm", port := 22, user := "root", keyPath := "id", timeoutNs := 30000000000,
    maxRetries := 3, initialBackoffNs := 2000000, maxBackoffNs := 30000000,
    strictHostKeyChecking := false, compression := false, keepAliveIntervalNs := none }

/-- Fresh manager for `c1wcfg`. -/
def c1wmgr : SSHManager := { config := c1wcfg, session := none, connectedAt := none }

/-- C1 witness: the amended backoff statement evaluated at attempt 2 of a
three-retry all-refused connect. -/
theorem c1_backoff_sequence_witness :
    nsPerMs ≤ c1wmgr.config.initialBackoffNs ∧
    ∃ o jit,
      SSHManager.connect c1wmgr refusedEnv = some o ∧
      jit < durationAsMillis (if 2 = 1 then c1wmgr.config.initialBackoffNs
        else min (c1wmgr.config.initialBackoffNs * 2 ^ (2 - 1)) c1wmgr.config.maxBackoffNs) ∧
      o.sleepsNs[2 - 1]? = some ((if 2 = 1 then c1wmgr.config.initialBackoffNs
        else min (c1wmgr.config.initialBackoffNs * 2 ^ (2 - 1)) c1wmgr.config.maxBackoffNs)
          + jit * nsPerMs) :=
  ⟨by decide,
   c1_backoff_sequence refusedEnv c1wmgr
     (fun _ => SSHError.connectionFailed "Failed to connect to root@vm: refused")
     (fun _ => rfl) (by decide) (by decide) 2 (by decide) (by decide)⟩

/-! ## C2: retry exhaustion -/

/-- Config with zero initial backoff and two retries. -/
def c2cfg : SSHConfig :=
  { host := "vm", port := 22, user := "root", keyPath := "id", timeoutNs := 30000000000,
    maxRetries := 2, initialBackoffNs := 0, maxBackoffNs := 30000000,
    strictHostKeyChecking := false, compression := false, keepAliveIntervalNs := none }

/-- Fresh manager for `c2cfg`. -/
def c2mgr : SSHManager := { config := c2cfg, session := none, connectedAt := none }

/-- C2 counterexample: with `max_retries = 2` and a zero `initial_backoff`,
an always-failing connect does not perform 2 attempts and return
`ConnectionFailed` — it panics in the jitter draw after the first failure
(empty sampling range), modelled as `none`. -/
theorem c2_counterexample :
    c2mgr.config.maxRetries = 2 ∧ SSHManager.connect c2mgr refusedEnv = none := by
  constructor
  · rfl
  · rfl

/-- C2 (amended): provided `initial_backoff` and `max_backoff` are each at
least 1 ms (so no jitter draw panics), a connect whose every attempt fails
performs exactly `max_retries` attempts, returns `ConnectionFailed` carrying
the attempt count and the display of the last underlying error, and sleeps
exactly `max_retries - 1` times — no sleep after the final failure. -/
theorem c2_retry_exhaustion (env : ConnEnv) (m : SSHManager) (errF : Nat → SSHError)
    (hfail : ∀ k, tryConnect env m k = Except.error (errF k))
    (hn : 1 ≤ m.config.maxRetries)
    (hb : nsPerMs ≤ m.config.initialBackoffNs)
    (hm : nsPerMs ≤ m.config.maxBackoffNs) :
    ∃ o, m.connect env = some o ∧
      o.attempts = m.config.maxRetries ∧
      o.result = Except.error (SSHError.connectionFailed
        ("Failed to connect after " ++ toString m.config.maxRetries
          ++ " attempts: " ++ (errF (m.config.maxRetries - 1)).toMessage)) ∧
      o.sleepsNs.length = m.config.maxRetries - 1 := by
  refine ⟨_, connect_allFail env m errF hfail hn hb hm, rfl, rfl, ?_⟩
  simp

/-- Config for the C2 witness: three retries, sane backoffs. -/
def c2wcfg : SSHConfig :=
  { host := "vm", port := 22, user := "root", keyPath := "id", timeoutNs := 30000000000,
    maxRetries := 3, initialBackoffNs := 1000000, maxBackoffNs := 30000000,
    strictHostKeyChecking := false, compression := false, keepAliveIntervalNs := none }

/-- Fresh manager for `c2wcfg`. -/
def c2wmgr : SSHManager := { config := c2wcfg, session := none, connectedAt := none }

/-- C2 witness: the exhaustion statement evaluated on a three-retry
all-refused connect. -/
theorem c2_retry_exhaustion_witness :
    1 ≤ c2wmgr.config.maxRetries ∧
    ∃ o, SSHManager.connect c2wmgr refusedEnv = some o ∧
      o.attempts = c2wmgr.config.maxRetries ∧
      o.result = Except.error (SSHError.connectionFailed
        ("Failed to connect after " ++ toString c2wmgr.config.maxRetries
          ++ " attempts: "
          ++ SSHError.toMessage (SSHError.connectionFailed
               "Failed to connect to root@vm: refused"))) ∧
      o.sleepsNs.length = c2wmgr.config.maxRetries - 1 :=
  ⟨by decide,
   c2_retry_exhaustion refusedEnv c2wmgr
     (fun _ => SSHError.connectionFailed "Failed to connect to root@vm: refused")
     (fun _ => rfl) (by decide) (by decide) (by decide)⟩

/-! ## C3: key-file errors -/

/-- Environment where resolving the key file always fails with an io error
(the network, never reached within an attempt, would succeed). -/
def missingKeyEnv : ConnEnv :=
  { canonicalize := fun _ => Except.error "No such file or directory (os error 2)",
    net := fun _ => NetOutcome.success, entropy := fun _ => 0, now := 0 }

/-- Config for C3: two retries, 1 ms initial backoff. -/
def c3cfg : SSHConfig :=
  { host := "vm", port := 22, user := "root", keyPath := "missing", timeoutNs := 30000000000,
    maxRetries := 2, initialBackoffNs := 1000000, maxBackoffNs := 30000000,
    strictHostKeyChecking := false, compression := false, keepAliveIntervalNs := none }

/-- Fresh manager for `c3cfg`. -/
def c3mgr : SSHManager := { config := c3cfg, session := none, connectedAt := none }

/-- C3 counterexample: with a missing key file and `max_retries = 2`,
`connect` performs 2 attempts and one backoff sleep before failing with
`ConnectionFailed` wrapping the io error — the key-file error is retried and
does consume retry attempts and backoff sleeps, contradicting the claimed
fatal, non-retryable configuration error. -/
theorem c3_counterexample :
    SSHManager.connect c3mgr missingKeyEnv = some
      { result := Except.error (SSHError.connectionFailed
          "Failed to connect after 2 attempts: IO error: No such file or directory (os error 2)"),
        mgr := c3mgr, attempts := 2, sleepsNs := [1000000] } := by
  rfl

/-- C3 (amended): a missing or unreadable key file makes the attempt fail
with `SSHError::IO` before that attempt's network connect is consulted, but
`connect` treats it like any other attempt failure: with an always-failing
key resolution (and backoffs of at least 1 ms) it is retried with backoff
sleeps through all `max_retries` attempts and finally surfaced inside
`ConnectionFailed`. -/
theorem c3_key_error_retried :
    (∀ (cny : Nat → Except String String) (nt : Nat → NetOutcome) (ent : Nat → Nat)
        (t : Nat) (m : SSHManager) (k : Nat) (msg : String),
        cny k = Except.error msg →
        tryConnect { canonicalize := cny, net := nt, entropy := ent, now := t } m k
          = Except.error (SSHError.ioErr msg)) ∧
    (∀ (env : ConnEnv) (m : SSHManager) (msg : String),
        (∀ k, env.canonicalize k = Except.error msg) →
        1 ≤ m.config.maxRetries →
        nsPerMs ≤ m.config.initialBackoffNs →
        nsPerMs ≤ m.config.maxBackoffNs →
        ∃ o, m.connect env = some o ∧
          o.attempts = m.config.maxRetries ∧
          o.sleepsNs.length = m.config.maxRetries - 1 ∧
          o.result = Except.error (SSHError.connectionFailed
            ("Failed to connect after " ++ toString m.config.maxRetries
              ++ " attempts: " ++ SSHError.toMessage (SSHError.ioErr msg)))) := by
  constructor
  · intro cny nt ent t m k msg h
    rw [tryConnect]
    simp only [h]
  · intro env m msg hkey hn hb hm
    have hfail : ∀ k, tryConnect env m k = Except.error (SSHError.ioErr msg) := by
      intro k
      rw [tryConnect]
      simp only [hkey k]
    refine ⟨_, connect_allFail env m (fun _ => SSHError.ioErr msg) hfail hn hb hm,
      rfl, ?_, rfl⟩
    simp

/-- C3 witness: the amended statement evaluated on the concrete missing-key
scenario. -/
theorem c3_key_error_retried_witness :
    tryConnect missingKeyEnv c3mgr 0
      = Except.error (SSHError.ioErr "No such file or directory (os error 2)") ∧
    ∃ o, SSHManager.connect c3mgr missingKeyEnv = some o ∧
      o.attempts = c3mgr.config.maxRetries ∧
      o.sleepsNs.length = c3mgr.config.maxRetries - 1 ∧
      o.result = Except.error (SSHError.connectionFailed
        ("Failed to connect after " ++ toString c3mgr.config.maxRetries
          ++ " attempts: "
          ++ SSHError.toMessage (SSHError.ioErr "No such file or directory (os error 2)"))) :=
  ⟨c3_key_error_retried.1 (fun _ => Except.error "No such file or directory (os error 2)")
     (fun _ => NetOutcome.success) (fun _ => 0) 0 c3mgr 0
     "No such file or directory (os error 2)" rfl,
   c3_key_error_retried.2 missingKeyEnv c3mgr "No such file or directory (os error 2)"
     (fun _ => rfl) (by decide) (by decide) (by decide)⟩

/-! ## C4: disconnect -/

/-- Config for the C4 scenarios. -/
def c4cfg : SSHConfig :=
  { host := "vm", port := 22, user := "root", keyPath := "id", timeoutNs := 30000000000,
    maxRetries := 2, initialBackoffNs := 1000000, maxBackoffNs := 30000000,
    strictHostKeyChecking := false, compression := false, keepAliveIntervalNs := none }

/-- A connected manager whose timestamp is set. -/
def c4mgr : SSHManager := { config := c4cfg, session := some 0, connectedAt := some 5 }

/-- C4 counterexample: when the close itself fails, `disconnect` returns
`SessionFailed` through `?` before the `connected_at = None` assignment, so
the connection timestamp is NOT cleared, contradicting the claim that it is
cleared in every case. -/
theorem c4_counterexample :
    (c4mgr.disconnect (CloseOutcome.fail "broken pipe")).2.connectedAt = some 5 ∧
    some 5 ≠ (none : Option Nat) ∧
    (c4mgr.disconnect (CloseOutcome.fail "broken pipe")).1
      = Except.error (SSHError.sessionFailed "Failed to close session: broken pipe") := by
  refine ⟨rfl, by decide, rfl⟩

/-- C4 (amended): `disconnect` always releases the channel handle (the
session is `none` afterwards, so `connection_info` returns `none` and
`execute` fails with `ClientNotInitialized`); when the close succeeds or no
channel was held it returns `Ok` and clears the timestamp; when the close
fails it reports `SessionFailed` and the timestamp is left untouched (stale
but unobservable through `connection_info`). -/
theorem c4_disconnect (m : SSHManager) (close : CloseOutcome) :
    (m.disconnect close).2.session = none ∧
    (∀ t, ((m.disconnect close).2.connectionInfo t) = none) ∧
    (∀ cmd o, (m.disconnect close).2.executeTr cmd o
        = (Except.error SSHError.clientNotInitialized, [])) ∧
    ((m.session = none ∨ close = CloseOutcome.ok) →
      (m.disconnect close).1 = Except.ok () ∧ (m.disconnect close).2.connectedAt = none) ∧
    (∀ s e, m.session = some s → close = CloseOutcome.fail e →
      (m.disconnect close).1
          = Except.error (SSHError.sessionFailed ("Failed to close session: " ++ e)) ∧
      (m.disconnect close).2.connectedAt = m.connectedAt) := by
  have hsess : (m.disconnect close).2.session = none := by
    rw [SSHManager.disconnect.eq_def]
    cases hs : m.session with
    | none => rfl
    | some s => cases close <;> rfl
  refine ⟨hsess, ?_, ?_, ?_, ?_⟩
  · intro t
    rw [SSHManager.connectionInfo, hsess]
    rfl
  · intro cmd o
    rw [SSHManager.executeTr.eq_def, hsess]
  · intro h
    rw [SSHManager.disconnect.eq_def]
    cases hs : m.session with
    | none => exact ⟨rfl, rfl⟩
    | some s =>
      cases hc : close with
      | ok => exact ⟨rfl, rfl⟩
      | fail e => rcases h with h | h
                  · rw [hs] at h; cases h
                  · rw [hc] at h; cases h
  · intro s e hs hc
    rw [SSHManager.disconnect.eq_def, hs, hc]
    exact ⟨rfl, rfl⟩

/-- C4 witness: the amended statement evaluated on a connected manager with
a failing close. -/
theorem c4_disconnect_witness :
    (c4mgr.disconnect (CloseOutcome.fail "broken pipe")).2.session = none ∧
    ((c4mgr.disconnect (CloseOutcome.fail "broken pipe")).2.connectionInfo 9 = none) ∧
    ((c4mgr.disconnect (CloseOutcome.fail "broken pipe")).1
        = Except.error (SSHError.sessionFailed "Failed to close session: broken pipe") ∧
      (c4mgr.disconnect (CloseOutcome.fail "broken pipe")).2.connectedAt
        = c4mgr.connectedAt) :=
  ⟨(c4_disconnect c4mgr (CloseOutcome.fail "broken pipe")).1,
   (c4_disconnect c4mgr (CloseOutcome.fail "broken pipe")).2.1 9,
   (c4_disconnect c4mgr (CloseOutcome.fail "broken pipe")).2.2.2.2 0 "broken pipe" rfl rfl⟩

/-! ## C6: sub-millisecond backoff -/

/-- C6: the jitter range `[0, backoff.as_millis())` is empty exactly when the
backoff is below 1 ms; with a zero initial backoff every later backoff is
still zero; and a connect whose first attempt fails with retries remaining
and a sub-millisecond initial backoff hits the empty-range branch of the
sampler (a panic, modelled as `none`) — so connect can only be total when
`initial_backoff ≥ 1 ms`. -/
theorem c6_subms_backoff_panics :
    (∀ raw hi : Nat, randRange raw hi = none ↔ hi = 0) ∧
    (∀ d : Nat, durationAsMillis d = 0 ↔ d < nsPerMs) ∧
    (∀ mB j : Nat, backoffSeq mB 0 j = 0) ∧
    (∀ (env : ConnEnv) (m : SSHManager) (e : SSHError),
        tryConnect env m 0 = Except.error e →
        2 ≤ m.config.maxRetries →
        m.config.initialBackoffNs < nsPerMs →
        m.connect env = none) := by
  refine ⟨?_, ?_, ?_, ?_⟩
  · intro raw hi
    rw [randRange]
    constructor
    · intro h
      by_contra hne
      rw [if_neg hne] at h
      cases h
    · intro h
      rw [if_pos h]
  · intro d
    rw [durationAsMillis]
    exact Nat.div_eq_zero_iff (by norm_num [nsPerMs])
  · intro mB j
    induction j with
    | zero => rfl
    | succ j ih => simp [backoffSeq, ih]
  · intro env m e hf hn hb
    obtain ⟨r, hr⟩ : ∃ r, m.config.maxRetries = r + 1 := ⟨m.config.maxRetries - 1, by omega⟩
    have hmillis : durationAsMillis m.config.initialBackoffNs = 0 :=
      Nat.div_eq_of_lt hb
    rw [SSHManager.connect, hr, connectGo.eq_2, hf]
    have hguard : 0 < m.config.maxRetries - 1 := by omega
    simp [hguard, randRange, hmillis]

/-- Config with 0.5 ms initial backoff and two retries. -/
def c6cfg : SSHConfig :=
  { host := "vm", port := 22, user := "root", keyPath := "id", timeoutNs := 30000000000,
    maxRetries := 2, initialBackoffNs := 500000, maxBackoffNs := 30000000,
    strictHostKeyChecking := false, compression := false, keepAliveIntervalNs := none }

/-- Fresh manager for `c6cfg`. -/
def c6mgr : SSHManager := { config := c6cfg, session := none, connectedAt := none }

/-- C6 witness: the empty-range sampler, the sub-millisecond truncation, the
all-zero backoff orbit, and the panicking connect, each at concrete
inputs. -/
theorem c6_subms_backoff_panics_witness :
    randRange 7 0 = none ∧
    durationAsMillis 500000 = 0 ∧
    backoffSeq 30000000 0 3 = 0 ∧
    SSHManager.connect c6mgr refusedEnv = none :=
  ⟨(c6_subms_backoff_panics.1 7 0).mpr rfl,
   (c6_subms_backoff_panics.2.1 500000).mpr (by decide),
   c6_subms_backoff_panics.2.2.1 30000000 3,
   c6_subms_backoff_panics.2.2.2 refusedEnv c6mgr
     (SSHError.connectionFailed "Failed to connect to root@vm: refused")
     rfl (by decide) (by decide)⟩

/-! ## C7: execute before connect -/

/-- C7: on a session that holds no live channel, `execute` fails with
`ClientNotInitialized` for every command and every would-be outcome, and
issues no remote invocation at all (empty I/O trace). -/
theorem c7_execute_unconnected (m : SSHManager) (h : m.session = none)
    (cmd : String) (o : ExecOutcome) :
    m.executeTr cmd o = (Except.error SSHError.clientNotInitialized, []) := by
  rw [SSHManager.executeTr.eq_def, h]

/-- C7 witness: a freshly constructed (never-connected) manager refuses a
concrete command. -/
theorem c7_execute_unconnected_witness :
    SSHManager.executeTr { config := c4cfg, session := none, connectedAt := none }
        "uname -a" (ExecOutcome.completed { stdout := "Linux", stderr := "", status := 0 })
      = (Except.error SSHError.clientNotInitialized, []) :=
  c7_execute_unconnected { config := c4cfg, session := none, connectedAt := none } rfl
    "uname -a" (ExecOutcome.completed { stdout := "Linux", stderr := "", status := 0 })

/-! ## C8: execute outcome taxonomy -/

/-- C8: on a connected session, a completed command with exit status 0
returns the captured stdout (regardless of stderr content); a non-zero exit
status yields `CommandExecutionFailed` carrying the status and the captured
stderr; an elapsed timeout yields `TimeoutError`; and a channel-level failure
yields `CommandExecutionFailed` with the transport cause. -/
theorem c8_execute_outcomes (cfg : SSHConfig) (h : Nat) (ca : Option Nat) (cmd : String) :
    (∀ out : CmdOutput, out.status = 0 →
      SSHManager.execute { config := cfg, session := some h, connectedAt := ca }
          cmd (ExecOutcome.completed out) = Except.ok out.stdout) ∧
    (∀ out : CmdOutput, out.status ≠ 0 →
      SSHManager.execute { config := cfg, session := some h, connectedAt := ca }
          cmd (ExecOutcome.completed out)
        = Except.error (SSHError.commandExecutionFailed
            ("Command failed with status: " ++ toString out.status
              ++ ", stderr: " ++ out.stderr))) ∧
    (SSHManager.execute { config := cfg, session := some h, connectedAt := ca }
        cmd ExecOutcome.timeout
      = Except.error (SSHError.timeoutError "Command execution timed out")) ∧
    (∀ e, SSHManager.execute { config := cfg, session := some h, connectedAt := ca }
        cmd (ExecOutcome.channelErr e)
      = Except.error (SSHError.commandExecutionFailed ("Failed to execute command: " ++ e))) := by
  refine ⟨?_, ?_, rfl, fun e => rfl⟩
  · intro out hout
    simp [SSHManager.execute, SSHManager.executeTr, hout]
  · intro out hout
    simp [SSHManager.execute, SSHManager.executeTr, hout]

/-- C8 witness: a zero-status command with non-empty stderr succeeds with its
stdout, and a status-3 command fails carrying status and stderr. -/
theorem c8_execute_outcomes_witness :
    SSHManager.execute { config := c4cfg, session := some 0, connectedAt := some 5 }
        "make" (ExecOutcome.completed { stdout := "done", stderr := "warning: deprecated", status := 0 })
      = Except.ok "done" ∧
    SSHManager.execute { config := c4cfg, session := some 0, connectedAt := some 5 }
        "make" (ExecOutcome.completed { stdout := "", stderr := "fatal", status := 3 })
      = Except.error (SSHError.commandExecutionFailed
          ("Command failed with status: " ++ toString 3 ++ ", stderr: " ++ "fatal")) :=
  ⟨(c8_execute_outcomes c4cfg 0 (some 5) "make").1
     { stdout := "done", stderr := "warning: deprecated", status := 0 } rfl,
   (c8_execute_outcomes c4cfg 0 (some 5) "make").2.1
     { stdout := "", stderr := "fatal", status := 3 } (by decide)⟩

/-! ## C9: batch execution -/

/-- The batch loop when every remaining command succeeds: all outputs are
appended in order and every command is run. -/
theorem executeBatchGo_ok (m : SSHManager) (outcomes : Nat → ExecOutcome)
    (res : Nat → String) :
    ∀ (cmds : List String) (i0 : Nat) (acc ran : List String),
      (∀ j, (hj : j < cmds.length) →
        m.execute (cmds.get ⟨j, hj⟩) (outcomes (i0 + j)) = Except.ok (res (i0 + j))) →
      executeBatchGo m outcomes cmds i0 acc ran
        = (Except.ok (acc ++ (List.range cmds.length).map (fun j => res (i0 + j))),
           ran ++ cmds) := by
  intro cmds
  induction cmds with
  | nil => intro i0 acc ran h; simp [executeBatchGo]
  | cons c rest ih =>
    intro i0 acc ran h
    have h0 : m.execute c (outcomes i0) = Except.ok (res i0) := by
      simpa using h 0 (by simp)
    simp only [executeBatchGo, h0]
    rw [ih (i0 + 1) (acc ++ [res i0]) (ran ++ [c]) (by
      intro j hj
      have := h (j + 1) (by simpa using Nat.succ_lt_succ hj)
      simpa [show i0 + (j + 1) = i0 + 1 + j from by omega] using this)]
    have htail : (List.range rest.length).map ((fun j => res (i0 + j)) ∘ Nat.succ)
        = (List.range rest.length).map (fun j => res (i0 + 1 + j)) :=
      List.map_congr_left (fun j _ => by
        show res (i0 + (j + 1)) = res (i0 + 1 + j)
        rw [show i0 + (j + 1) = i0 + 1 + j from by omega])
    simp only [List.length_cons]
    rw [List.range_succ_eq_map, List.map_cons, List.map_map, htail]
    simp [List.append_assoc]

/-- The batch loop when command `k` is the first to fail: its error is
returned and exactly the commands up to and including `k` are run. -/
theorem executeBatchGo_fail (m : SSHManager) (outcomes : Nat → ExecOutcome)
    (res : Nat → String) :
    ∀ (cmds : List String) (k i0 : Nat) (acc ran : List String) (e : SSHError)
      (hk : k < cmds.length),
      (∀ j, (hj : j < k) →
        m.execute (cmds.get ⟨j, Nat.lt_trans hj hk⟩) (outcomes (i0 + j))
          = Except.ok (res (i0 + j))) →
      m.execute (cmds.get ⟨k, hk⟩) (outcomes (i0 + k)) = Except.error e →
      executeBatchGo m outcomes cmds i0 acc ran
        = (Except.error e, ran ++ cmds.take (k + 1)) := by
  intro cmds
  induction cmds with
  | nil => intro k i0 acc ran e hk; exact absurd hk (by simp)
  | cons c rest ih =>
    intro k i0 acc ran e hk hok herr
    cases k with
    | zero =>
      have herr0 : m.execute c (outcomes i0) = Except.error e := by simpa using herr
      simp only [executeBatchGo, herr0]
      simp
    | succ k' =>
      have h0 : m.execute c (outcomes i0) = Except.ok (res i0) := by
        simpa using hok 0 (by omega)
      simp only [executeBatchGo, h0]
      rw [ih k' (i0 + 1) (acc ++ [res i0]) (ran ++ [c]) e (by
            simpa using Nat.lt_of_succ_lt_succ hk)
          (by
            intro j hj
            have := hok (j + 1) (by omega)
            simpa [show i0 + (j + 1) = i0 + 1 + j from by omega] using this)
          (by
            have := herr
            simpa [show i0 + (k' + 1) = i0 + 1 + k' from by omega] using this)]
      simp [List.append_assoc]

/-- C9: `execute_batch` runs the commands through `execute` strictly in list
order: if every command succeeds it returns the full ordered output list (one
entry per command, in order) having run exactly the given commands; at the
first failing command it returns that command's error having run exactly the
commands up to and including the failing one — later commands are never
run. -/
theorem c9_execute_batch (m : SSHManager) (cmds : List String)
    (outcomes : Nat → ExecOutcome) (res : Nat → String) :
    ((∀ j, (hj : j < cmds.length) →
        m.execute (cmds.get ⟨j, hj⟩) (outcomes j) = Except.ok (res j)) →
      m.executeBatch cmds outcomes
        = (Except.ok ((List.range cmds.length).map res), cmds)) ∧
    (∀ k e, (hk : k < cmds.length) →
      (∀ j, (hj : j < k) →
        m.execute (cmds.get ⟨j, Nat.lt_trans hj hk⟩) (outcomes j) = Except.ok (res j)) →
      m.execute (cmds.get ⟨k, hk⟩) (outcomes k) = Except.error e →
      m.executeBatch cmds outcomes = (Except.error e, cmds.take (k + 1))) := by
  constructor
  · intro h
    rw [SSHManager.executeBatch,
      executeBatchGo_ok m outcomes res cmds 0 [] [] (by
        intro j hj
        simpa [Nat.zero_add] using h j hj)]
    simp
  · intro k e hk hok herr
    rw [SSHManager.executeBatch,
      executeBatchGo_fail m outcomes res cmds k 0 [] [] e hk (by
        intro j hj
        simpa [Nat.zero_add] using hok j hj) (by
        simpa [Nat.zero_add] using herr)]
    simp

/-- Per-index outputs used by the C9 witness. -/
def c9res (i : Nat) : String := "r" ++ toString i

/-- Outcome stream where every command completes with status 0. -/
def c9okOutcomes (i : Nat) : ExecOutcome :=
  ExecOutcome.completed { stdout := "r" ++ toString i, stderr := "", status := 0 }

/-- Outcome stream where the second command (index 1) times out. -/
def c9failOutcomes (i : Nat) : ExecOutcome :=
  if i = 1 then ExecOutcome.timeout else c9okOutcomes i

/-- Connected manager used by the C9 witness. -/
def c9mgr : SSHManager := { config := c4cfg, session := some 0, connectedAt := some 5 }

/-- C9 witness: an all-succeeding two-command batch returns both outputs in
order, and a three-command batch whose second command times out returns the
timeout error having run only the first two commands. -/
theorem c9_execute_batch_witness :
    c9mgr.executeBatch ["pwd", "ls"] c9okOutcomes
      = (Except.ok ((List.range (["pwd", "ls"] : List String).length).map c9res),
         ["pwd", "ls"]) ∧
    c9mgr.executeBatch ["pwd", "ls", "rm -f x"] c9failOutcomes
      = (Except.error (SSHError.timeoutError "Command execution timed out"),
         (["pwd", "ls", "rm -f x"] : List String).take (1 + 1)) :=
  ⟨(c9_execute_batch c9mgr ["pwd", "ls"] c9okOutcomes c9res).1 (by decide),
   (c9_execute_batch c9mgr ["pwd", "ls", "rm -f x"] c9failOutcomes c9res).2 1
     (SSHError.timeoutError "Command execution timed out") (by decide)
     (by decide) (by decide)⟩

/-! ## C5: session pool -/

/-- Removal never grows the map. -/
theorem eraseConn_length_le (key : String) :
    ∀ l : List (String × SSHManager), (eraseConn l key).length ≤ l.length := by
  intro l
  induction l with
  | nil => simp [eraseConn]
  | cons kv rest ih =>
    rw [eraseConn]
    by_cases h : kv.1 = key
    · rw [if_pos h]
      simp
    · rw [if_neg h]
      simpa using ih

/-- `get_or_create_connection` either leaves the map unchanged or, strictly
under capacity, appends exactly one entry for the requested key. -/
theorem getOrCreate_pool_cases (p : SSHConnectionPool) (key : String) (cfg : SSHConfig)
    (env : ConnEnv) (r : PoolGetResult)
    (h : p.getOrCreateConnection key cfg env = some r) :
    r.pool = p ∨
    (p.connections.length < p.maxConnections ∧
      ∃ mgr, r.pool.connections = p.connections ++ [(key, mgr)] ∧
        r.pool.maxConnections = p.maxConnections) := by
  unfold SSHConnectionPool.getOrCreateConnection at h
  cases hl : lookupConn p.connections key with
  | some mgr =>
    simp only [hl] at h
    injection h with h
    subst h
    left; rfl
  | none =>
    simp only [hl] at h
    by_cases hcap : p.maxConnections ≤ p.connections.length
    · rw [if_pos hcap] at h
      injection h with h
      subst h
      left; rfl
    · rw [if_neg hcap] at h
      cases hnew : SSHManager.new cfg with
      | error e =>
        simp only [hnew] at h
        injection h with h
        subst h
        left; rfl
      | ok m0 =>
        simp only [hnew] at h
        cases hconn : m0.connect env with
        | none =>
          simp only [hconn] at h
          exact Option.noConfusion h
        | some o =>
          simp only [hconn] at h
          cases hres : o.result with
          | error e =>
            simp only [hres] at h
            injection h with h
            subst h
            left; rfl
          | ok u =>
            cases u
            simp only [hres] at h
            injection h with h
            subst h
            right
            exact ⟨by omega, o.mgr, rfl, rfl⟩

/-- `remove_connection` never grows the map and keeps the capacity bound. -/
theorem removeConnection_len (p : SSHConnectionPool) (key : String) (close : CloseOutcome) :
    (p.removeConnection key close).2.connections.length ≤ p.connections.length ∧
    (p.removeConnection key close).2.maxConnections = p.maxConnections := by
  unfold SSHConnectionPool.removeConnection
  cases hl : lookupConn p.connections key with
  | none => exact ⟨le_refl _, rfl⟩
  | some mgr => exact ⟨eraseConn_length_le key p.connections, rfl⟩

/-- Every single pool operation preserves the capacity invariant and the
capacity bound itself. -/
theorem applyPoolOp_inv (p p1 : SSHConnectionPool) (op : PoolOp)
    (hinv : p.connections.length ≤ p.maxConnections)
    (h : applyPoolOp p op = some p1) :
    p1.connections.length ≤ p1.maxConnections ∧ p1.maxConnections = p.maxConnections := by
  cases op with
  | closeAllOp =>
    rw [applyPoolOp] at h
    injection h with h
    subst h
    exact ⟨by simp [SSHConnectionPool.closeAll], rfl⟩
  | remove key close =>
    rw [applyPoolOp] at h
    injection h with h
    subst h
    have hr := removeConnection_len p key close
    exact ⟨by omega, hr.2⟩
  | getOrCreate key cfg env =>
    rw [applyPoolOp] at h
    cases hg : p.getOrCreateConnection key cfg env with
    | none =>
      rw [hg] at h
      exact Option.noConfusion h
    | some r =>
      rw [hg] at h
      simp only [Option.map_some'] at h
      injection h with h
      subst h
      rcases getOrCreate_pool_cases p key cfg env r hg with hsame | ⟨hlt, mgr, hconnl, hmax⟩
      · rw [hsame]
        exact ⟨hinv, rfl⟩
      · refine ⟨?_, hmax⟩
        rw [hconnl, hmax]
        simp
        omega

/-- Runs of pool operations preserve the capacity invariant. -/
theorem runPool_inv : ∀ (ops : List PoolOp) (p p' : SSHConnectionPool),
    p.connections.length ≤ p.maxConnections →
    runPool p ops = some p' →
    p'.connections.length ≤ p'.maxConnections ∧ p'.maxConnections = p.maxConnections := by
  intro ops
  induction ops with
  | nil =>
    intro p p' hinv h
    rw [runPool] at h
    injection h with h
    subst h
    exact ⟨hinv, rfl⟩
  | cons op rest ih =>
    intro p p' hinv h
    rw [runPool] at h
    cases hop : applyPoolOp p op with
    | none =>
      rw [hop] at h
      exact Option.noConfusion h
    | some p1 =>
      rw [hop] at h
      have h2 : runPool p1 rest = some p' := h
      have hstep := applyPoolOp_inv p p1 op hinv hop
      have htail := ih p1 p' hstep.1 h2
      exact ⟨htail.1, htail.2.trans hstep.2⟩

/-- C5: (1) starting from an empty pool of any capacity, any sequence of
`get_or_create_connection` / `remove_connection` / `close_all` operations
leaves at most `max_connections` entries; (2) an absent key at capacity fails
with `ConnectionFailed` ("Maximum number of connections reached"), leaves the
pool unchanged and attempts no connect; (3) an absent key under capacity
whose connect fails returns that error and inserts nothing; (4) a present key
returns the stored manager unchanged for every supplied config, with no
connect attempted. -/
theorem c5_pool_invariant :
    (∀ (maxC : Nat) (ops : List PoolOp) (p' : SSHConnectionPool),
      runPool (SSHConnectionPool.new maxC) ops = some p' →
      p'.connections.length ≤ maxC) ∧
    (∀ (p : SSHConnectionPool) (key : String) (cfg : SSHConfig) (env : ConnEnv),
      lookupConn p.connections key = none →
      p.maxConnections ≤ p.connections.length →
      p.getOrCreateConnection key cfg env = some
        { result := Except.error (SSHError.connectionFailed
            "Maximum number of connections reached"),
          pool := p, attemptedConnect := false }) ∧
    (∀ (p : SSHConnectionPool) (key : String) (cfg : SSHConfig) (env : ConnEnv)
        (m0 : SSHManager) (o : ConnectOutcome) (e : SSHError),
      lookupConn p.connections key = none →
      p.connections.length < p.maxConnections →
      SSHManager.new cfg = Except.ok m0 →
      m0.connect env = some o →
      o.result = Except.error e →
      p.getOrCreateConnection key cfg env = some
        { result := Except.error e, pool := p, attemptedConnect := true }) ∧
    (∀ (p : SSHConnectionPool) (key : String) (cfg : SSHConfig) (env : ConnEnv)
        (mgr : SSHManager),
      lookupConn p.connections key = some mgr →
      p.getOrCreateConnection key cfg env = some
        { result := Except.ok mgr, pool := p, attemptedConnect := false }) := by
  refine ⟨?_, ?_, ?_, ?_⟩
  · intro maxC ops p' h
    have := runPool_inv ops (SSHConnectionPool.new maxC) p' (by simp [SSHConnectionPool.new]) h
    rcases this with ⟨h1, h2⟩
    have h3 : p'.maxConnections = maxC := by simpa [SSHConnectionPool.new] using h2
    omega
  · intro p key cfg env hl hcap
    unfold SSHConnectionPool.getOrCreateConnection
    simp only [hl]
    rw [if_pos hcap]
  · intro p key cfg env m0 o e hl hlen hnew hconn hres
    unfold SSHConnectionPool.getOrCreateConnection
    simp only [hl]
    rw [if_neg (by omega)]
    simp only [hnew, hconn, hres]
  · intro p key cfg env mgr hl
    unfold SSHConnectionPool.getOrCreateConnection
    simp only [hl]

/-- A pool at capacity 1 holding one connected manager. -/
def c5pool : SSHConnectionPool := { connections := [("a", c4mgr)], maxConnections := 1 }

/-- The full outcome of the failing connect used by the C5 witness. -/
def c5out : ConnectOutcome :=
  { result := Except.error (SSHError.connectionFailed
      ("Failed to connect after 3 attempts: "
        ++ "Connection failed: Failed to connect to root@vm: refused")),
    mgr := c2wmgr, attempts := 3,
    sleepsNs := [1000000, 2000000] }

/-- C5 witness: the invariant after a concrete operation run; the
at-capacity rejection; the failed-connect non-insertion; and the existing-key
hit, each at concrete inputs. -/
theorem c5_pool_invariant_witness :
    ({ connections := [], maxConnections := 1 } : SSHConnectionPool).connections.length ≤ 1 ∧
    c5pool.getOrCreateConnection "b" c2wcfg refusedEnv = some
      { result := Except.error (SSHError.connectionFailed
          "Maximum number of connections reached"),
        pool := c5pool, attemptedConnect := false } ∧
    (SSHConnectionPool.new 1).getOrCreateConnection "a" c2wcfg refusedEnv = some
      { result := Except.error (SSHError.connectionFailed
          ("Failed to connect after 3 attempts: "
            ++ "Connection failed: Failed to connect to root@vm: refused")),
        pool := SSHConnectionPool.new 1, attemptedConnect := true } ∧
    c5pool.getOrCreateConnection "a" c2cfg refusedEnv = some
      { result := Except.ok c4mgr, pool := c5pool, attemptedConnect := false } :=
  ⟨c5_pool_invariant.1 1 [PoolOp.closeAllOp] { connections := [], maxConnections := 1 } rfl,
   c5_pool_invariant.2.1 c5pool "b" c2wcfg refusedEnv rfl (by decide),
   c5_pool_invariant.2.2.1 (SSHConnectionPool.new 1) "a" c2wcfg refusedEnv c2wmgr c5out
     (SSHError.connectionFailed
       ("Failed to connect after 3 attempts: "
         ++ "Connection failed: Failed to connect to root@vm: refused"))
     rfl (by decide) rfl (by rfl) rfl,
   c5_pool_invariant.2.2.2 c5pool "a" c2cfg refusedEnv c4mgr rfl⟩

/-! ## C10: configuration validation -/

/-- C10: `validate` accepts exactly the configurations with a non-empty host
and a non-zero `max_retries`, rejecting the two offending cases with the
corresponding construction-time error; `SSHManager::new` succeeds exactly
when `validate` does (building the manager with no session), and propagates
the very same validation error otherwise — a manager is never built from an
invalid config. -/
theorem c10_validate (c : SSHConfig) :
    (c.validate = Except.ok () ↔ (c.host ≠ "" ∧ c.maxRetries ≠ 0)) ∧
    (c.host = "" →
      c.validate = Except.error (SSHError.connectionFailed "Host cannot be empty")) ∧
    (c.host ≠ "" → c.maxRetries = 0 →
      c.validate = Except.error (SSHError.connectionFailed
        "Max retries must be greater than 0")) ∧
    (∀ m, SSHManager.new c = Except.ok m ↔
      (c.validate = Except.ok () ∧
        m = { config := c, session := none, connectedAt := none })) ∧
    (∀ e, SSHManager.new c = Except.error e ↔ c.validate = Except.error e) := by
  refine ⟨?_, ?_, ?_, ?_, ?_⟩
  · rw [SSHConfig.validate]
    split_ifs with h1 h2
    · simp [h1]
    · simp [h1, h2]
    · simp [h1, h2]
  · intro hh
    rw [SSHConfig.validate, if_pos hh]
  · intro hh1 hh2
    rw [SSHConfig.validate, if_neg hh1, if_pos hh2]
  · intro m
    cases hv : c.validate with
    | error e => simp [SSHManager.new, hv]
    | ok u =>
      cases u
      simp [SSHManager.new, hv, eq_comm]
  · intro e
    cases hv : c.validate with
    | error e0 => simp [SSHManager.new, hv]
    | ok u =>
      cases u
      simp [SSHManager.new, hv]

/-- A config with an empty host. -/
def c10badHost : SSHConfig :=
  { host := "", port := 22, user := "root", keyPath := "id", timeoutNs := 30000000000,
    maxRetries := 5, initialBackoffNs := 1000000, maxBackoffNs := 30000000,
    strictHostKeyChecking := false, compression := false, keepAliveIntervalNs := none }

/-- C10 witness: the valid config `c4cfg` passes both `validate` and `new`,
while the empty-host config is rejected at construction with the
configuration message. -/
theorem c10_validate_witness :
    (SSHConfig.validate c4cfg = Except.ok () ↔ (c4cfg.host ≠ "" ∧ c4cfg.maxRetries ≠ 0)) ∧
    SSHConfig.validate c10badHost
      = Except.error (SSHError.connectionFailed "Host cannot be empty") ∧
    (SSHManager.new c4cfg
        = Except.ok { config := c4cfg, session := none, connectedAt := none } ↔
      (SSHConfig.validate c4cfg = Except.ok () ∧
        ({ config := c4cfg, session := none, connectedAt := none } : SSHManager)
          = { config := c4cfg, session := none, connectedAt := none })) ∧
    (SSHManager.new c10badHost
        = Except.error (SSHError.connectionFailed "Host cannot be empty") ↔
      SSHConfig.validate c10badHost
        = Except.error (SSHError.connectionFailed "Host cannot be empty")) :=
  ⟨(c10_validate c4cfg).1,
   (c10_validate c10badHost).2.1 rfl,
   (c10_validate c4cfg).2.2.2.1 { config := c4cfg, session := none, connectedAt := none },
   (c10_validate c10badHost).2.2.2.2
     (SSHError.connectionFailed "Host cannot be empty")⟩
